import Mathlib

/-!
A shallow embedding of the crustaceousfcgi FastCGI client (src/fcgi/mod.rs and
src/main.rs) and proofs about it.  Bytes are modelled as Nat (every byte the
code produces is shown, or checked in the code itself, to be at most 255);
Rust byte vectors are List Nat; Rust String data is the list of its UTF-8
bytes, so String.len is List.length.  Fallible Rust functions returning
Result, and functions that can panic via expect, are modelled with
Except String carrying the error or panic message of the source.
-/

namespace CrustFcgi

/-- The FCGIRecordType enum of the source with its explicit discriminants
1 to 11. -/
inductive RecordType where
  | BeginRequest
  | AbortRequest
  | EndRequest
  | Params
  | Stdin
  | Stdout
  | Stderr
  | Data
  | GetValues
  | GetValuesResult
  | UnknownType
deriving DecidableEq, Repr

/-- The cast `record_type as u8` of the source: the enum discriminant. -/
def RecordType.as_u8 : RecordType → Nat
  | .BeginRequest => 1
  | .AbortRequest => 2
  | .EndRequest => 3
  | .Params => 4
  | .Stdin => 5
  | .Stdout => 6
  | .Stderr => 7
  | .Data => 8
  | .GetValues => 9
  | .GetValuesResult => 10
  | .UnknownType => 11

/-- The 8 header fields of the FCGIHeader struct, each a u8 in the source. -/
structure Header where
  version : Nat
  record_type : RecordType
  request_id_hi : Nat
  request_id_lo : Nat
  content_length_hi : Nat
  content_length_lo : Nat
  padding_length : Nat
  reserved : Nat
deriving DecidableEq, Repr

/-- The FCGIRecord struct: header plus content and padding byte vectors. -/
structure Record where
  header : Header
  content_data : List Nat
  padding_data : List Nat
deriving DecidableEq, Repr

/-- Record.record_from_data of the source.  padding_length is a u8 there, so
here it is a Nat that callers keep at most 255; the source still compares it
against u8::MAX, and that comparison is kept.  u16::MAX.into() is 65535.
The try_into conversions of the two content length bytes are modelled by the
explicit range checks the Rust conversion performs. -/
def Record.record_from_data (record_type : RecordType) (content_data : List Nat)
    (padding_length : Nat) : Except String Record :=
  let content_length := content_data.length
  if content_length > 65535 then
    .error "Content too long"
  else if padding_length > 255 then
    .error "Padding too long"
  else
    let content_length_hi := (0xFF00 &&& content_length) >>> 8
    let content_length_lo := 0xFF &&& content_length
    if content_length_hi > 255 ∨ content_length_lo > 255 then
      .error "Content length conversion failed"
    else
      .ok { header :=
              { version := 1
                record_type := record_type
                request_id_hi := 0
                request_id_lo := 1
                content_length_hi := content_length_hi
                content_length_lo := content_length_lo
                padding_length := padding_length
                reserved := 0 }
            content_data := content_data
            padding_data := List.replicate padding_length 0 }

/-- Record.to_vec_u8 of the source: the 8 header bytes, then content, then
padding. -/
def Record.to_vec_u8 (r : Record) : List Nat :=
  [r.header.version, r.header.record_type.as_u8, r.header.request_id_hi,
   r.header.request_id_lo, r.header.content_length_hi, r.header.content_length_lo,
   r.header.padding_length, r.header.reserved]
    ++ r.content_data ++ r.padding_data

/-- The FCGIKeyValuePair struct; name and value hold the UTF-8 bytes of the
Rust Strings. -/
structure KeyValuePair where
  name : List Nat
  value : List Nat
deriving DecidableEq, Repr

/-- One step of the masking loop in KeyValuePair.to_vec_u8: with
offset = 8 * i and mask = 0xFF <<< offset, the pushed byte is
(size &&& mask) >>> offset. -/
def sizeByte (sz i : Nat) : Nat := (sz &&& (0xFF <<< (8 * i))) >>> (8 * i)

/-- The four bytes pushed by the loop `for i in (0..4).rev()`, most
significant first. -/
def sizeBytes (sz : Nat) : List Nat :=
  [sizeByte sz 3, sizeByte sz 2, sizeByte sz 1, sizeByte sz 0]

/-- KeyValuePair.to_vec_u8 of the source.  u32::MAX as usize is 4294967295;
u8::MAX.into() is 255.  The per-byte try_into checks of the loop are modelled
by the any-check over the eight produced bytes.  Note the source compares the
sizes against 255 (u8::MAX), not 127, when choosing the short form, and it
never forces the top bit of the first long-form byte. -/
def KeyValuePair.to_vec_u8 (kv : KeyValuePair) : Except String (List Nat) :=
  let name_size := kv.name.length
  let value_size := kv.value.length
  if name_size > 4294967295 ∨ value_size > 4294967295 then
    .error "Name or value size too large"
  else if (sizeBytes name_size ++ sizeBytes value_size).any (fun b => 255 < b) then
    .error "Name or value size decomposition failed"
  else
    let name_size_bytes := sizeBytes name_size
    let value_size_bytes := sizeBytes value_size
    let name_len_out := if name_size > 255 then name_size_bytes else [name_size_bytes[3]!]
    let value_len_out := if value_size > 255 then value_size_bytes else [value_size_bytes[3]!]
    .ok (name_len_out ++ value_len_out ++ kv.name ++ kv.value)

/-- The FCGIRoleType enum with discriminants 1 to 3. -/
inductive RoleType where
  | Responder
  | Authorizer
  | Filter
deriving DecidableEq, Repr

/-- The cast `role as u16` of the source. -/
def RoleType.as_u16 : RoleType → Nat
  | .Responder => 1
  | .Authorizer => 2
  | .Filter => 3

/-- The FCGIBeginRequest struct: role, flags byte and the 5 reserved bytes. -/
structure BeginRequest where
  role : RoleType
  flags : Nat
  reserved : List Nat
deriving DecidableEq, Repr

/-- BeginRequest.to_vec_u8 of the source; the try_into conversions on the two
role bytes are modelled by explicit range checks. -/
def BeginRequest.to_vec_u8 (b : BeginRequest) : Except String (List Nat) :=
  let role_as_u16 := b.role.as_u16
  let role_hi := (0xFF00 &&& role_as_u16) >>> 8
  let role_lo := 0xFF &&& role_as_u16
  if role_hi > 255 ∨ role_lo > 255 then
    .error "Role serialization failed."
  else
    .ok (role_hi :: role_lo :: b.flags :: b.reserved)

/-- Server.serialize_params of the source, as a function of the params field
(the UnixStream field plays no part in it): each pair is serialized, wrapped
in a Params record with zero padding, and the record bytes are concatenated.
The two expect panics become the error messages of the Except. -/
def Server.serialize_params (params : List KeyValuePair) : Except String (List Nat) := do
  let kv_records ← params.mapM (fun kv => do
    let data ← match kv.to_vec_u8 with
      | .ok d => pure d
      | .error _ => Except.error "KV serialization failed"
    let r ← match Record.record_from_data RecordType.Params data 0 with
      | .ok r => pure r
      | .error _ => Except.error "Record creation failed"
    pure r.to_vec_u8)
  pure kv_records.flatten

/-- The UTF-8 bytes of the replacement character U+FFFD that
String::from_utf8_lossy substitutes for ill-formed input. -/
def replacementBytes : List Nat := [0xEF, 0xBF, 0xBD]

/-- A UTF-8 continuation byte: 0x80 to 0xBF. -/
def isCont (b : Nat) : Bool := 0x80 ≤ b && b ≤ 0xBF

/-- The admissible second byte of a three-byte UTF-8 sequence headed by b. -/
def validSecondOf3 (b c : Nat) : Bool :=
  if b = 0xE0 then 0xA0 ≤ c && c ≤ 0xBF
  else if b = 0xED then 0x80 ≤ c && c ≤ 0x9F
  else isCont c

/-- The admissible second byte of a four-byte UTF-8 sequence headed by b. -/
def validSecondOf4 (b c : Nat) : Bool :=
  if b = 0xF0 then 0x90 ≤ c && c ≤ 0xBF
  else if b = 0xF4 then 0x80 ≤ c && c ≤ 0x8F
  else isCont c

/-- String::from_utf8_lossy of the Rust standard library, as the UTF-8 bytes
of the resulting string: well-formed sequences are copied through and each
maximal valid subpart of an ill-formed sequence is replaced by one U+FFFD,
following the substitution-of-maximal-subparts policy the standard library
documents. -/
def utf8_lossy : List Nat → List Nat
  | [] => []
  | b :: rest =>
    if b < 0x80 then b :: utf8_lossy rest
    else if 0xC2 ≤ b && b ≤ 0xDF then
      match rest with
      | [] => replacementBytes
      | c :: rest2 =>
        if isCont c then b :: c :: utf8_lossy rest2
        else replacementBytes ++ utf8_lossy (c :: rest2)
    else if 0xE0 ≤ b && b ≤ 0xEF then
      match rest with
      | [] => replacementBytes
      | c :: rest2 =>
        if validSecondOf3 b c then
          match rest2 with
          | [] => replacementBytes
          | d :: rest3 =>
            if isCont d then b :: c :: d :: utf8_lossy rest3
            else replacementBytes ++ utf8_lossy (d :: rest3)
        else replacementBytes ++ utf8_lossy (c :: rest2)
    else if 0xF0 ≤ b && b ≤ 0xF4 then
      match rest with
      | [] => replacementBytes
      | c :: rest2 =>
        if validSecondOf4 b c then
          match rest2 with
          | [] => replacementBytes
          | d :: rest3 =>
            if isCont d then
              match rest3 with
              | [] => replacementBytes
              | e :: rest4 =>
                if isCont e then b :: c :: d :: e :: utf8_lossy rest4
                else replacementBytes ++ utf8_lossy (e :: rest4)
            else replacementBytes ++ utf8_lossy (d :: rest3)
        else replacementBytes ++ utf8_lossy (c :: rest2)
    else replacementBytes ++ utf8_lossy rest

/-- Server.consume_response_to_string of the source.  The UnixStream is
modelled as the finite list of bytes the peer will deliver before closing;
read_exact succeeds when that many bytes remain and otherwise panics with the
expect message (an Except error here).  The accumulating String out-parameter
is the second argument; the result pairs its final bytes with the part of the
stream left unread when the loop breaks.  Each loop iteration reads the 8
header bytes, breaks on any record type other than Stdout (6) and Stderr (7),
and otherwise appends the lossy UTF-8 decoding of the content to the response
and discards the padding. -/
def Server.consume_response_to_string (input response : List Nat) :
    Except String (List Nat × List Nat) :=
  if _h8 : input.length < 8 then .error "Failed on read_exact 1"
  else
    let hbuf := input.take 8
    let rest := input.drop 8
    if hbuf[1]! ≠ RecordType.Stdout.as_u8 ∧ hbuf[1]! ≠ RecordType.Stderr.as_u8 then
      .ok (response, rest)
    else
      let size := (hbuf[4]! <<< 8) ||| hbuf[5]!
      if rest.length < size then .error "Failed on read_exact 2"
      else
        let record_body := rest.take size
        let rest2 := rest.drop size
        let response2 := response ++ utf8_lossy record_body
        let padsz := hbuf[6]!
        if rest2.length < padsz then .error "Failed on read_exact 3"
        else Server.consume_response_to_string (rest2.drop padsz) response2
termination_by input.length
decreasing_by
  simp only [List.length_drop]
  omega

/-- The UTF-8 bytes of a Lean string literal; every string in main.rs is
ASCII, where the byte sequence is the character-code sequence. -/
def strBytes (s : String) : List Nat := s.data.map Char.toNat

/-- The begin-request body main.rs constructs: Responder, flags 0, five zero
reserved bytes. -/
def main_begin_body : BeginRequest :=
  { role := RoleType.Responder, flags := 0, reserved := List.replicate 5 0 }

/-- The hardcoded parameter list of main.rs, in push order; note the
ninth-from-last entry, the pair of two empty strings. -/
def main_kvs : List KeyValuePair :=
  [ { name := strBytes "GATEWAY_INTERFACE", value := strBytes "CGI/1.1" },
    { name := strBytes "SERVER_ADDR", value := strBytes "127.0.0.1" },
    { name := strBytes "SERVER_PORT", value := strBytes "80" },
    { name := strBytes "SERVER_PROTOCOL", value := strBytes "HTTP/2.0" },
    { name := strBytes "SERVER_SOFTWARE", value := strBytes "CrustaceousFCGI/trunk" },
    { name := strBytes "REQUEST_METHOD", value := strBytes "GET" },
    { name := strBytes "REMOTE_ADDR", value := strBytes "127.0.0.1" },
    { name := strBytes "", value := strBytes "" },
    { name := strBytes "SCRIPT_FILENAME", value := strBytes "/var/www/html/index.php" } ]

/-- The record sequence main.rs assembles and writes, in emission order: the
BeginRequest record, one Params record per hardcoded pair, then the empty
Stdin record.  Every expect panic of main.rs is an Except error carrying the
expect message. -/
def main_records : Except String (List Record) := do
  let begin_bytes ← match main_begin_body.to_vec_u8 with
    | .ok v => pure v
    | .error _ => Except.error "Serialization failed"
  let begin_rec ← match Record.record_from_data RecordType.BeginRequest begin_bytes 0 with
    | .ok r => pure r
    | .error _ => Except.error "Record creation failed"
  let kv_records ← main_kvs.mapM (fun kv => do
    let data ← match kv.to_vec_u8 with
      | .ok d => pure d
      | .error _ => Except.error "KV serialization failed"
    match Record.record_from_data RecordType.Params data 0 with
      | .ok r => pure r
      | .error _ => Except.error "Record creation failed")
  let stdin_record ← match Record.record_from_data RecordType.Stdin [] 0 with
    | .ok r => pure r
    | .error _ => Except.error "record creation failed"
  pure (begin_rec :: kv_records ++ [stdin_record])

/-- The outbound byte buffer main.rs writes to the socket: the serialized
records of main_records concatenated in order. -/
def main_out : Except String (List Nat) := do
  let recs ← main_records
  pure (recs.map Record.to_vec_u8).flatten

/-- Modelled from the spec: the repository contains no name-value decoder
(NameValueCodec.decode of spec section 4.2 is unimplemented), so the length
rule is taken from the spec sentences: read the first length byte, and if its
top bit is 0 that byte is the length; otherwise consume 4 bytes, mask off the
top bit, and interpret the remaining 31 bits as a big-endian length.  Fails
with TruncatedNameValue when bytes run out. -/
def readLen : List Nat → Except String (Nat × List Nat)
  | [] => .error "TruncatedNameValue"
  | b :: rest =>
    if b < 0x80 then .ok (b, rest)
    else
      match rest with
      | b1 :: b2 :: b3 :: rest3 =>
        .ok (((b &&& 0x7F) <<< 24) ||| (b1 <<< 16) ||| (b2 <<< 8) ||| b3, rest3)
      | _ => .error "TruncatedNameValue"

/-- Modelled from the spec: NameValueCodec.decode of spec section 4.2, absent
from the repository: decode the name length and value length by the rule of
readLen, then take the declared name and value bytes, failing with
TruncatedNameValue if insufficient bytes remain. -/
def decode_kv (bytes : List Nat) : Except String (KeyValuePair × List Nat) := do
  let (nlen, r1) ← readLen bytes
  let (vlen, r2) ← readLen r1
  if r2.length < nlen + vlen then .error "TruncatedNameValue"
  else
    let name := r2.take nlen
    let rest := r2.drop nlen
    .ok ({ name := name, value := rest.take vlen }, rest.drop vlen)

/-- Frame bytes for an inbound test record: the 8 header bytes with version
1 and request id 1, the content, and the zero padding, exactly the framing of
Record.to_vec_u8. -/
def recordBytes (t : Nat) (content : List Nat) (padding : Nat) : List Nat :=
  [1, t, 0, 1, (0xFF00 &&& content.length) >>> 8, 0xFF &&& content.length, padding, 0]
    ++ content ++ List.replicate padding 0

/-- Decidable equality for Except, used to evaluate the embedded functions on
concrete inputs. -/
instance {ε α : Type} [DecidableEq ε] [DecidableEq α] : DecidableEq (Except ε α) := fun x y =>
  match x, y with
  | .ok a, .ok b => if h : a = b then isTrue (by rw [h]) else isFalse (by simp [h])
  | .error a, .error b => if h : a = b then isTrue (by rw [h]) else isFalse (by simp [h])
  | .ok _, .error _ => isFalse (by simp)
  | .error _, .ok _ => isFalse (by simp)

/-- Test fixture: the record that Record.record_from_data builds for a Stdin
record with content bytes 7, 8 and padding length 3. -/
def wrec : Record :=
  { header :=
      { version := 1
        record_type := RecordType.Stdin
        request_id_hi := 0
        request_id_lo := 1
        content_length_hi := 0
        content_length_lo := 2
        padding_length := 3
        reserved := 0 }
    content_data := [7, 8]
    padding_data := [0, 0, 0] }

/-! Helper lemmas about the bit masks the source uses. -/

theorem and_mask_shift (n m : Nat) : (n &&& (255 <<< m)) >>> m = n / 2 ^ m % 256 := by
  have h255 : (255 : Nat) = 2 ^ 8 - 1 := by norm_num
  have h256 : (256 : Nat) = 2 ^ 8 := by norm_num
  rw [← Nat.shiftRight_eq_div_pow, h256, h255]
  apply Nat.eq_of_testBit_eq
  intro j
  simp only [Nat.testBit_shiftRight, Nat.testBit_and, Nat.testBit_shiftLeft,
    Nat.testBit_mod_two_pow, Nat.testBit_two_pow_sub_one, Nat.le_add_right,
    decide_True, Bool.true_and, Nat.add_sub_cancel_left, ge_iff_le]
  rw [Bool.and_comm]

theorem shiftLeft_or_low (a b : Nat) (hb : b < 2 ^ 8) : (a <<< 8) ||| b = a * 2 ^ 8 + b := by
  apply Nat.eq_of_testBit_eq
  intro j
  rw [Nat.testBit_or, Nat.testBit_shiftLeft, Nat.mul_comm a (2 ^ 8),
    Nat.testBit_mul_pow_two_add a hb j]
  by_cases hj : j < 8
  · have : ¬ (8 ≤ j) := by omega
    simp [hj, this]
  · have h8 : 8 ≤ j := by omega
    have : b < 2 ^ j := lt_of_lt_of_le hb (Nat.pow_le_pow_right (by norm_num) h8)
    simp [hj, h8, Nat.testBit_lt_two_pow this]

theorem hi_eq (cl : Nat) : (0xFF00 &&& cl) >>> 8 = cl / 256 % 256 := by
  have h : (0xFF00 : Nat) = 255 <<< 8 := by decide
  rw [h, Nat.and_comm]
  have := and_mask_shift cl 8
  norm_num at this
  exact this

theorem lo_eq (cl : Nat) : 0xFF &&& cl = cl % 256 := by
  rw [Nat.and_comm]
  have := Nat.and_pow_two_sub_one_eq_mod cl 8
  norm_num at this
  exact this

theorem hilo_recompose (cl : Nat) (h : cl ≤ 65535) :
    (((0xFF00 &&& cl) >>> 8) <<< 8) ||| (0xFF &&& cl) = cl := by
  rw [hi_eq, lo_eq]
  have h1 : cl / 256 < 256 := by omega
  rw [Nat.mod_eq_of_lt h1, shiftLeft_or_low _ _ (by exact Nat.mod_lt _ (by norm_num))]
  norm_num
  omega

theorem hilo_add (cl : Nat) (h : cl ≤ 65535) :
    ((0xFF00 &&& cl) >>> 8) * 256 + (0xFF &&& cl) = cl := by
  rw [hi_eq, lo_eq]
  have h1 : cl / 256 < 256 := by omega
  rw [Nat.mod_eq_of_lt h1]
  omega

theorem sizeByte_eq (sz i : Nat) : sizeByte sz i = sz / 2 ^ (8 * i) % 256 := by
  simp only [sizeByte]
  exact and_mask_shift sz (8 * i)

theorem sizeBytes_le (sz : Nat) : (sizeBytes sz).any (fun b => 255 < b) = false := by
  simp only [sizeBytes, List.any_cons, List.any_nil, Bool.or_false, sizeByte_eq,
    Bool.or_eq_false_iff, decide_eq_false_iff_not, Nat.not_lt]
  omega

theorem kv_isOk_of_le (kv : KeyValuePair) (hn : kv.name.length ≤ 4294967295)
    (hv : kv.value.length ≤ 4294967295) : (KeyValuePair.to_vec_u8 kv).isOk = true := by
  simp only [KeyValuePair.to_vec_u8]
  rw [if_neg (by omega)]
  rw [if_neg]
  · rfl
  · rw [List.any_append]
    simp [sizeBytes_le]

/-! Helper lemmas about the response-reading loop. -/

theorem consume_break (input response : List Nat) (h : 8 ≤ input.length)
    (h6 : input[1]! ≠ 6) (h7 : input[1]! ≠ 7) :
    Server.consume_response_to_string input response = .ok (response, input.drop 8) := by
  rw [Server.consume_response_to_string]
  rw [dif_neg (by omega)]
  have ht : (input.take 8)[1]! = input[1]! := by
    rw [getElem!_def, getElem!_def, List.getElem?_take_of_lt (by norm_num)]
  rw [if_pos]
  constructor
  · rw [ht]; exact h6
  · rw [ht]; exact h7

theorem consume_step (t : Nat) (content : List Nat) (pad : Nat) (tail response : List Nat)
    (ht : t = 6 ∨ t = 7) (hcl : content.length ≤ 65535) :
    Server.consume_response_to_string (recordBytes t content pad ++ tail) response =
      Server.consume_response_to_string tail (response ++ utf8_lossy content) := by
  have hin : recordBytes t content pad ++ tail =
      [1, t, 0, 1, (0xFF00 &&& content.length) >>> 8, 0xFF &&& content.length, pad, 0]
        ++ (content ++ (List.replicate pad 0 ++ tail)) := by
    simp [recordBytes, List.append_assoc]
  rw [Server.consume_response_to_string, hin]
  rw [dif_neg (by simp)]
  have htake : ([1, t, 0, 1, (0xFF00 &&& content.length) >>> 8, 0xFF &&& content.length, pad, 0]
      ++ (content ++ (List.replicate pad 0 ++ tail))).take 8 =
      [1, t, 0, 1, (0xFF00 &&& content.length) >>> 8, 0xFF &&& content.length, pad, 0] :=
    List.take_left' rfl
  have hdrop : ([1, t, 0, 1, (0xFF00 &&& content.length) >>> 8, 0xFF &&& content.length, pad, 0]
      ++ (content ++ (List.replicate pad 0 ++ tail))).drop 8 =
      content ++ (List.replicate pad 0 ++ tail) :=
    List.drop_left' rfl
  rw [if_neg]
  swap
  · simp only [htake]
    simp only [List.getElem!_cons_succ, List.getElem!_cons_zero]
    rcases ht with rfl | rfl
    · simp [RecordType.as_u8]
    · simp [RecordType.as_u8]
  simp only [htake, hdrop, List.getElem!_cons_succ, List.getElem!_cons_zero]
  rw [hilo_recompose _ hcl]
  rw [if_neg (by simp only [List.length_append, List.length_replicate]; omega)]
  rw [List.take_left' rfl, List.drop_left' rfl]
  rw [if_neg (by simp only [List.length_append, List.length_replicate]; omega)]
  rw [List.drop_left' (by simp)]

/-! Claim theorems. -/

set_option maxRecDepth 8000 in
/-- Claim C1 (code bug): the claim says the encoder picks the 1-byte length
form exactly for lengths at most 127 and the 4-byte form above that, so that
a length of 128 uses the 4-byte form and decoding inverts encoding.  The code
instead compares against 255: a name of length 128 is encoded with the single
length byte 128 = 0x80, whose set top bit marks a 4-byte length on the wire,
so the spec-rule decoder misparses the output and the round trip fails. -/
theorem kv_length_128_uses_one_byte_form :
    KeyValuePair.to_vec_u8 { name := List.replicate 128 65, value := [] } =
      .ok (128 :: 0 :: List.replicate 128 65) ∧
    decode_kv (128 :: 0 :: List.replicate 128 65) = .error "TruncatedNameValue" := by
  constructor
  · decide
  · decide

set_option maxRecDepth 16000 in
/-- Claim C2 (code bug): the claim says every 4-byte length field carries a
set top bit in its first byte.  The code writes the four raw big-endian bytes
of the length without forcing the top bit: for a name of length 256 the four
length bytes are 0, 0, 1, 0 and the first byte is 0, top bit clear. -/
theorem kv_length_256_top_bit_clear :
    KeyValuePair.to_vec_u8 { name := List.replicate 256 65, value := [] } =
      .ok (0 :: 0 :: 1 :: 0 :: 0 :: List.replicate 256 65) := by
  decide

/-- Claim C3 (code bug): the record types emitted by main are, in order, one
BeginRequest (1), nine Params (4) and one Stdin (5), so the ordering part of
the claim holds and the empty Stdin terminator is present; but no Params
record with content length 0 is ever emitted: the intended terminator is the
encoded empty pair, a Params record whose content is the two bytes 0, 0. -/
theorem main_emits_no_empty_params_record :
    (main_records.map (fun recs => recs.map (fun r => r.header.record_type.as_u8)) =
      .ok [1, 4, 4, 4, 4, 4, 4, 4, 4, 4, 5]) ∧
    (main_records.map (fun recs =>
      recs.countP (fun r => r.header.record_type.as_u8 == 4 && r.content_data.length == 0)) =
      .ok 0) ∧
    (main_records.map (fun recs =>
      recs.countP (fun r => r.header.record_type.as_u8 == 4 && r.content_data == [0, 0])) =
      .ok 1) := by
  refine ⟨by decide, by decide, by decide⟩

/-- Claim C4 counterexample: the response reader has no separate stderr
buffer.  On the stream [Stdout "Hello", Stderr "X", EndRequest] the content
of the Stderr record is appended to the very buffer that accumulated the
Stdout content, which therefore holds "HelloX" and not "Hello". -/
theorem consume_stderr_appends_to_same_buffer :
    Server.consume_response_to_string
      (recordBytes 6 (strBytes "Hello") 0 ++ (recordBytes 7 (strBytes "X") 0 ++
        recordBytes 3 [0, 0, 0, 0, 1, 0, 0, 0] 0)) [] =
      .ok (strBytes "HelloX", [0, 0, 0, 0, 1, 0, 0, 0]) ∧
    strBytes "HelloX" ≠ strBytes "Hello" := by
  constructor
  · rw [consume_step 6 _ 0 _ _ (Or.inl rfl) (by decide),
      consume_step 7 _ 0 _ _ (Or.inr rfl) (by decide),
      consume_break _ _ (by decide) (by decide) (by decide)]
    decide
  · decide

/-- Claim C4 as amended: the content of every Stdout (6) and Stderr (7)
record is appended, lossily UTF-8 decoded, to the single response buffer,
and the stream [Stdout "Hello", Stdout " World", EndRequest] yields the
response "Hello World" with the EndRequest body left in the stream. -/
theorem consume_appends_to_single_buffer :
    (∀ t content pad tail response, t = 6 ∨ t = 7 → content.length ≤ 65535 →
      Server.consume_response_to_string (recordBytes t content pad ++ tail) response =
        Server.consume_response_to_string tail (response ++ utf8_lossy content)) ∧
    Server.consume_response_to_string
      (recordBytes 6 (strBytes "Hello") 0 ++ (recordBytes 6 (strBytes " World") 0 ++
        recordBytes 3 [0, 0, 0, 0, 1, 0, 0, 0] 0)) [] =
      .ok (strBytes "Hello World", [0, 0, 0, 0, 1, 0, 0, 0]) := by
  constructor
  · intro t content pad tail response ht hcl
    exact consume_step t content pad tail response ht hcl
  · rw [consume_step 6 _ 0 _ _ (Or.inl rfl) (by decide),
      consume_step 6 _ 0 _ _ (Or.inl rfl) (by decide),
      consume_break _ _ (by decide) (by decide) (by decide)]
    decide

/-- Witness for the amended claim C4, at a concrete Stderr record. -/
theorem consume_appends_to_single_buffer_witness :
    Server.consume_response_to_string (recordBytes 7 [66] 0 ++ []) [] =
      Server.consume_response_to_string [] ([] ++ utf8_lossy [66]) :=
  consume_appends_to_single_buffer.1 7 [66] 0 [] [] (Or.inr rfl) (by decide)

/-- Claim C5 counterexample: on a stream holding one EndRequest record with
application status 5, the reader stops without reading the 8-byte content
body: the body bytes are still unread in the stream and nothing of the
record content was parsed or recorded. -/
theorem consume_end_request_leaves_body_unread :
    Server.consume_response_to_string (recordBytes 3 [0, 0, 0, 5, 1, 0, 0, 0] 0) [] =
      .ok ([], [0, 0, 0, 5, 1, 0, 0, 0]) ∧
    ([0, 0, 0, 5, 1, 0, 0, 0] : List Nat) ≠ [] := by
  constructor
  · rw [consume_break _ _ (by decide) (by decide) (by decide)]
    decide
  · decide

/-- Claim C5 as amended: when the reader decodes a header whose type byte is
EndRequest (3), it breaks out of the loop at once: it consumes only the 8
header bytes, leaves content body and padding unread, parses and records no
status, and returns the response accumulated so far unchanged. -/
theorem consume_end_request_breaks :
    ∀ input response : List Nat, 8 ≤ input.length →
      input[1]! = RecordType.EndRequest.as_u8 →
      Server.consume_response_to_string input response = .ok (response, input.drop 8) := by
  intro input response h ht
  apply consume_break input response h
  · rw [ht]; decide
  · rw [ht]; decide

/-- Witness for the amended claim C5, at a concrete 8-byte header. -/
theorem consume_end_request_breaks_witness :
    Server.consume_response_to_string [1, 3, 0, 1, 0, 0, 0, 0] [] = .ok ([], []) :=
  consume_end_request_breaks [1, 3, 0, 1, 0, 0, 0, 0] [] (by decide) (by decide)

/-- Claim C6: every record built by Record.record_from_data serializes to
exactly 8 + content length + padding length bytes: version byte 1, the type
code, request id bytes 0 and 1, the two big-endian content length bytes,
the padding length, reserved byte 0, then the content, then all-zero
padding; and the two length bytes recompose to the content length. -/
theorem record_from_data_serialization :
    ∀ (rt : RecordType) (content : List Nat) (pl : Nat) (r : Record),
      Record.record_from_data rt content pl = .ok r →
      r.to_vec_u8.length = 8 + content.length + pl ∧
      r.to_vec_u8 = 1 :: rt.as_u8 :: 0 :: 1 :: ((0xFF00 &&& content.length) >>> 8) ::
        (0xFF &&& content.length) :: pl :: 0 :: (content ++ List.replicate pl 0) ∧
      ((0xFF00 &&& content.length) >>> 8) * 256 + (0xFF &&& content.length) =
        content.length := by
  intro rt content pl r hr
  simp only [Record.record_from_data] at hr
  split at hr
  · exact Except.noConfusion hr
  next hcl =>
    split at hr
    · exact Except.noConfusion hr
    split at hr
    · exact Except.noConfusion hr
    have hrr := Except.ok.inj hr
    subst hrr
    refine ⟨?_, ?_, ?_⟩
    · simp only [Record.to_vec_u8, List.length_append, List.length_cons, List.length_nil,
        List.length_replicate]
    · simp [Record.to_vec_u8]
    · exact hilo_add _ (by omega)

/-- Witness for claim C6, at the Stdin record with content bytes 7, 8 and
padding length 3. -/
theorem record_from_data_serialization_witness :
    wrec.to_vec_u8.length = 8 + [7, 8].length + 3 ∧
    wrec.to_vec_u8 = 1 :: RecordType.Stdin.as_u8 :: 0 :: 1 ::
      ((0xFF00 &&& [7, 8].length) >>> 8) :: (0xFF &&& [7, 8].length) :: 3 :: 0 ::
      ([7, 8] ++ List.replicate 3 0) ∧
    ((0xFF00 &&& [7, 8].length) >>> 8) * 256 + (0xFF &&& [7, 8].length) = [7, 8].length :=
  record_from_data_serialization RecordType.Stdin [7, 8] 3 wrec (by decide)

/-- Claim C7: record encoding returns the content-too-long error exactly when
the content length exceeds 65535, and for content within bounds a padding
length above 255 returns the padding-too-long error. -/
theorem record_from_data_boundary :
    ∀ (rt : RecordType) (content : List Nat) (pl : Nat),
      (Record.record_from_data rt content pl = .error "Content too long" ↔
        65535 < content.length) ∧
      (content.length ≤ 65535 → 255 < pl →
        Record.record_from_data rt content pl = .error "Padding too long") := by
  intro rt content pl
  constructor
  · constructor
    · intro h
      simp only [Record.record_from_data] at h
      split at h
      · next hc => exact hc
      split at h
      · exact absurd (Except.error.inj h) (by decide)
      split at h
      · exact absurd (Except.error.inj h) (by decide)
      · exact Except.noConfusion h
    · intro hc
      simp only [Record.record_from_data]
      rw [if_pos hc]
  · intro hcl hpl
    simp only [Record.record_from_data]
    rw [if_neg (by omega), if_pos hpl]

/-- Witness for claim C7: content length 65536 fails with the content error,
and padding length 256 fails with the padding error. -/
theorem record_from_data_boundary_witness :
    (Record.record_from_data RecordType.Stdin (List.replicate 65536 0) 0 =
      .error "Content too long") ∧
    (Record.record_from_data RecordType.Stdin [] 256 = .error "Padding too long") :=
  ⟨(record_from_data_boundary RecordType.Stdin (List.replicate 65536 0) 0).1.mpr
      (by rw [List.length_replicate]; norm_num),
    (record_from_data_boundary RecordType.Stdin [] 256).2 (by decide) (by decide)⟩

/-- Claim C9: for every content vector of length at most 65535 and every
padding length representable as one byte, Record.record_from_data succeeds,
and whatever the content, the only error it can return is the
content-too-long one: the padding branch and the length-conversion branch
are unreachable for byte-sized padding. -/
theorem record_from_data_total :
    ∀ (rt : RecordType) (content : List Nat) (pl : Nat), pl ≤ 255 →
      (content.length ≤ 65535 → (Record.record_from_data rt content pl).isOk = true) ∧
      (∀ e, Record.record_from_data rt content pl = .error e → e = "Content too long") := by
  intro rt content pl hpl
  constructor
  · intro hcl
    simp only [Record.record_from_data]
    rw [if_neg (by omega), if_neg (by omega), if_neg]
    · rfl
    · rw [hi_eq, lo_eq]
      omega
  · intro e he
    simp only [Record.record_from_data] at he
    split at he
    · exact (Except.error.inj he).symm
    split at he
    · next hc => exact absurd hc (by omega)
    split at he
    · next hc =>
      rw [hi_eq, lo_eq] at hc
      omega
    · exact Except.noConfusion he

/-- Witness for claim C9, at a concrete Params record. -/
theorem record_from_data_total_witness :
    (Record.record_from_data RecordType.Params [1, 2, 3] 7).isOk = true :=
  (record_from_data_total RecordType.Params [1, 2, 3] 7 (by decide)).1 (by decide)

/-- Claim C8 counterexample: a name of length 2 to the 31, which exceeds the
31-bit bound 2 to the 31 minus 1 of the claim, is nevertheless encoded
successfully, because the code only rejects sizes above u32::MAX. -/
theorem kv_length_2_pow_31_encodes :
    2 ^ 31 - 1 < (List.replicate (2 ^ 31) (0 : Nat)).length ∧
    (KeyValuePair.to_vec_u8
      { name := List.replicate (2 ^ 31) (0 : Nat), value := [] }).isOk = true := by
  constructor
  · rw [List.length_replicate]
    norm_num
  · apply kv_isOk_of_le
    · rw [List.length_replicate]
      norm_num
    · norm_num

/-- Claim C8 as amended: pair encoding fails with the name-or-value-too-large
error exactly when the byte length of the name or of the value exceeds
4294967295, the u32::MAX bound the code checks; for every pair with both
lengths at most 4294967295 it succeeds. -/
theorem kv_error_iff_exceeds_u32_max :
    ∀ kv : KeyValuePair,
      (KeyValuePair.to_vec_u8 kv = .error "Name or value size too large" ↔
        4294967295 < kv.name.length ∨ 4294967295 < kv.value.length) ∧
      (kv.name.length ≤ 4294967295 → kv.value.length ≤ 4294967295 →
        (KeyValuePair.to_vec_u8 kv).isOk = true) := by
  intro kv
  constructor
  · constructor
    · intro h
      simp only [KeyValuePair.to_vec_u8] at h
      split at h
      · next hc => exact hc
      split at h
      · exact absurd (Except.error.inj h) (by decide)
      · exact Except.noConfusion h
    · intro hc
      simp only [KeyValuePair.to_vec_u8]
      rw [if_pos hc]
  · intro hn hv
    exact kv_isOk_of_le kv hn hv

/-- Witness for the amended claim C8, at a concrete small pair. -/
theorem kv_error_iff_exceeds_u32_max_witness :
    (KeyValuePair.to_vec_u8 { name := [], value := [5] }).isOk = true :=
  (kv_error_iff_exceeds_u32_max { name := [], value := [5] }).2 (by decide) (by decide)

/-- Claim C10: accumulation into the response goes through lossy UTF-8
conversion and is not byte exact: a Stdout record whose content is the
single invalid byte 0xFF contributes the three replacement-character bytes
0xEF 0xBF 0xBD to the response, not its own content byte. -/
theorem consume_lossy_replaces_invalid_utf8 :
    Server.consume_response_to_string
      (recordBytes 6 [0xFF] 0 ++ recordBytes 3 [0, 0, 0, 0, 1, 0, 0, 0] 0) [] =
      .ok ([0xEF, 0xBF, 0xBD], [0, 0, 0, 0, 1, 0, 0, 0]) ∧
    ([0xEF, 0xBF, 0xBD] : List Nat) ≠ [0xFF] := by
  constructor
  · rw [consume_step 6 _ 0 _ _ (Or.inl rfl) (by decide),
      consume_break _ _ (by decide) (by decide) (by decide)]
    decide
  · decide

end CrustFcgi
